import Mathlib

/-!
Shallow embedding of `tts-overlay` (`src/main.rs`): a single-file eframe/egui
application that shows a one-line text box, and on Enter sends the text to the
Google Cloud TTS endpoint on a background thread, decodes the returned audio
and plays it on the configured output device, releasing a oneshot completion
signal when done.  The embedding models

  * the per-frame `OverlayApp::update` logic (lines 78-171) as a transition
    function on an explicit application state, driven by per-frame UI inputs;
  * the spawned pipeline thread (lines 96-161) as a function from an
    environment (the results of the external HTTP / base64 / cpal / rodio
    calls) to the list of observable events it performs, in order;
  * the `oneshot` channel used between the app and `main` (lines 34-41).

External library calls (reqwest, base64, cpal device enumeration, rodio
decoding/playback) are modelled as oracle fields of `PipelineEnv`: the code
under verification only branches on their success/failure and on the values
they return, which the oracles supply.
-/

namespace TTSOverlay

/-- Character-list version of Rust's `str::starts_with`: `leadsWith pat s`
is true when `pat` is an initial segment of `s`. -/
def leadsWith : List Char → List Char → Bool
  | [], _ => true
  | _ :: _, [] => false
  | a :: as, b :: bs => a == b && leadsWith as bs

/-- Character-list version of Rust's `str::contains` for string patterns:
`containsSeq pat s` is true when `pat` occurs contiguously inside `s`. -/
def containsSeq (pat : List Char) : List Char → Bool
  | [] => pat.isEmpty
  | b :: bs => leadsWith pat (b :: bs) || containsSeq pat bs

/-- Rust `hay.contains(pat)` for strings (substring containment). -/
def strContainsStr (hay pat : String) : Bool :=
  containsSeq pat.data hay.data

/-- The `Configuration` struct (main.rs lines 44-54), deserialized from
`config.toml`.  The four numeric fields are presentation-only. -/
structure Configuration where
  font_size : Float
  width : Float
  x : Float
  y : Float
  gcloud_token : String
  gcloud_language : String
  gcloud_voice : String
  output_device : String

/-- A cpal output device as the code observes it: an opaque identity plus
the result of `device.name()` (`none` models an unreadable name, i.e.
`device.name()` returning `Err`). -/
structure Device where
  id : Nat
  name? : Option String
deriving DecidableEq, Repr

/-- Observable actions of the spawned pipeline thread, in program order. -/
inductive Event
  /-- the HTTP POST to the synthesize endpoint was sent; the JSON body
  carries `input.text`, `voice.languageCode`, `voice.name` and the fixed
  `audioConfig.audioEncoding = "LINEAR16"` (main.rs lines 100-111) -/
  | httpPost (text languageCode voiceName : String)
  /-- `resp.json::<HashMap<String, String>>()` ran; `ok` is its success -/
  | jsonParsed (ok : Bool)
  /-- `value.get("audioContent")` ran; `found` tells whether the field exists -/
  | extractField (found : Bool)
  /-- base64 `STANDARD.decode` ran; `ok` is its success -/
  | b64Decode (ok : Bool)
  /-- `host.output_devices()` ran; `ok` is its success -/
  | enumDevices (ok : Bool)
  /-- `device.name()` ran for the device with this id; `ok` is its success -/
  | readName (id : Nat) (ok : Bool)
  /-- `name.contains(&config.output_device)` ran; `matched` is its value -/
  | nameMatch (id : Nat) (matched : Bool)
  /-- `rodio::OutputStream::try_from_device` ran; `ok` is its success -/
  | openStream (id : Nat) (ok : Bool)
  /-- `rodio::Decoder::new_wav` ran on the decoded bytes; `ok` is its success -/
  | wavDecode (ok : Bool)
  /-- `decoder.total_duration()` ran; `found` tells whether it was `Some` -/
  | readDuration (found : Bool)
  /-- `handle.play_raw(...)` ran; `ok` is its success -/
  | playSubmit (id : Nat) (ok : Bool)
  /-- `sleep(duration + 500ms)` ran, for `ms` milliseconds in total -/
  | postWait (ms : Nat)
  /-- `waiter.send(())` ran -/
  | signalSend
deriving DecidableEq, Repr

/-- Result of the HTTP send plus JSON body parse (main.rs lines 98-116):
either the send fails, or the body is not a string map, or it yields a field
map, modelled as an association list. -/
inductive HttpResult
  | sendErr
  | jsonErr
  | jsonOk (fields : List (String × String))

/-- Oracles for every external call the pipeline thread makes.  `wavDecoder`
maps the base64-decoded bytes to `none` (decoder construction failed) or
`some d?` where `d?` is `decoder.total_duration()` in milliseconds. -/
structure PipelineEnv where
  http : HttpResult
  b64 : String → Option (List Nat)
  outputDevices : Option (List Device)
  openStream : Nat → Bool
  wavDecoder : List Nat → Option (Option Nat)
  playOk : Nat → Bool

/-- `HashMap::get` on the parsed response, modelled on the association list
(keys are unique in the real map, so first-match lookup agrees with it). -/
def lookupField (fields : List (String × String)) (k : String) : Option String :=
  (fields.find? (fun p => p.1 == k)).map (fun p => p.2)

/-- Events of the body of the matching-device branch (main.rs lines 128-151):
open the output stream, construct the WAV decoder, read the total duration,
submit playback, and sleep `duration + 500ms`; each step is skipped when the
previous one fails.  The `break` after this block is modelled by `deviceLoop`
not recursing once a device matched. -/
def attemptDevice (env : PipelineEnv) (wav : List Nat) (d : Device) : List Event :=
  if env.openStream d.id then
    Event.openStream d.id true ::
      match env.wavDecoder wav with
      | none => [Event.wavDecode false]
      | some none => [Event.wavDecode true, Event.readDuration false]
      | some (some dur) =>
        Event.wavDecode true :: Event.readDuration true ::
          if env.playOk d.id then
            [Event.playSubmit d.id true, Event.postWait (dur + 500)]
          else
            [Event.playSubmit d.id false]
  else
    [Event.openStream d.id false]

/-- The `for device in devices` loop (main.rs lines 124-154): skip devices
whose name is unreadable, skip devices whose name does not contain
`target` (`config.output_device`), and on the first match run
`attemptDevice` and `break` — regardless of how the attempt went. -/
def deviceLoop (env : PipelineEnv) (target : String) (wav : List Nat) :
    List Device → List Event
  | [] => []
  | d :: rest =>
    match d.name? with
    | none => Event.readName d.id false :: deviceLoop env target wav rest
    | some nm =>
      if strContainsStr nm target then
        Event.readName d.id true :: Event.nameMatch d.id true ::
          attemptDevice env wav d
      else
        Event.readName d.id true :: Event.nameMatch d.id false ::
          deviceLoop env target wav rest

/-- Events of the cascade of `if let` layers in the spawned thread after the
HTTP send (main.rs lines 116-159): JSON parse, `audioContent` extraction,
base64 decode, device enumeration and loop — each layer cutting the rest off
on failure. -/
def pipelineBody (config : Configuration) (env : PipelineEnv) : List Event :=
  match env.http with
  | HttpResult.sendErr => []
  | HttpResult.jsonErr => [Event.jsonParsed false]
  | HttpResult.jsonOk fields =>
    Event.jsonParsed true ::
      match lookupField fields "audioContent" with
      | none => [Event.extractField false]
      | some encoded =>
        Event.extractField true ::
          match env.b64 encoded with
          | none => [Event.b64Decode false]
          | some wav =>
            Event.b64Decode true ::
              match env.outputDevices with
              | none => [Event.enumDevices false]
              | some devices =>
                Event.enumDevices true ::
                  deviceLoop env config.output_device wav devices

/-- The whole spawned thread body (main.rs lines 96-161) as its event trace:
HTTP POST, then the `if let` cascade, followed unconditionally by
`waiter.send(())`. -/
def pipelineThread (config : Configuration) (text : String) (env : PipelineEnv) :
    List Event :=
  (Event.httpPost text config.gcloud_language config.gcloud_voice ::
    pipelineBody config env) ++ [Event.signalSend]

/-- The device-match test of main.rs lines 125-127 as a predicate on one
device: the name is readable and contains the configured target. -/
def devMatches (target : String) (d : Device) : Bool :=
  match d.name? with
  | some nm => strContainsStr nm target
  | none => false

/-- The device the loop settles on: the first enumerated device passing
`devMatches`. -/
def firstMatchingDevice (target : String) (ds : List Device) : Option Device :=
  ds.find? (devMatches target)

example : strContainsStr "USB Speakers" "Speakers" = true := by decide
example : strContainsStr "Speakers" "USB Speakers" = false := by decide
example : strContainsStr "anything" "" = true := by decide

/-- What the UI collaborator reports to `OverlayApp::update` on one refresh:
the text after this frame's edits, whether the text box holds focus
(`textbox.has_focus()`), whether `self.grace_period <= Instant::now()`, and
the Enter-key edge (`ui.input(|i| i.key_pressed(Key::Enter))`). -/
structure FrameInput where
  text : String
  hasFocus : Bool
  graceElapsed : Bool
  enterPressed : Bool
deriving DecidableEq, Repr

/-- What one `update` call does that is visible outside the app struct:
spawn the pipeline thread with a text/config snapshot, send the completion
signal directly (abandoned branch), send `ViewportCommand::Close`, and/or
call `textbox.request_focus()`. -/
structure FrameOutput where
  spawned : Option (String × Configuration)
  sentNow : Bool
  closeCmd : Bool
  focusReq : Bool

/-- The mutable state of `OverlayApp` (main.rs lines 56-61); `waiter` is
`true` while `self.waiter` is still `Some` (the oneshot sender not yet
taken).  `grace_period` is an `Instant`, so it appears here only through
`FrameInput.graceElapsed`. -/
structure AppState where
  text : String
  config : Configuration
  waiter : Bool

/-- `OverlayApp::new` (main.rs lines 64-71): empty text, sender present. -/
def OverlayApp.new (config : Configuration) : AppState :=
  { text := "", config := config, waiter := true }

/-- One call of `OverlayApp::update` (main.rs lines 78-171).  When the box
is unfocused and the grace period has elapsed: on Enter, `self.waiter.take()`
— when it still held the sender — spawns the pipeline thread with clones of
the text and config; otherwise a still-held sender is sent directly.  Either
way `ViewportCommand::Close` is sent.  In every other case the box has its
focus re-requested and nothing else happens. -/
def updateFrame (s : AppState) (inp : FrameInput) : AppState × FrameOutput :=
  let s1 : AppState := { s with text := inp.text }
  if !inp.hasFocus && inp.graceElapsed then
    if inp.enterPressed then
      if s1.waiter then
        ({ s1 with waiter := false },
         { spawned := some (s1.text, s1.config), sentNow := false,
           closeCmd := true, focusReq := false })
      else
        (s1, { spawned := none, sentNow := false,
               closeCmd := true, focusReq := false })
    else
      if s1.waiter then
        ({ s1 with waiter := false },
         { spawned := none, sentNow := true,
           closeCmd := true, focusReq := false })
      else
        (s1, { spawned := none, sentNow := false,
               closeCmd := true, focusReq := false })
  else
    (s1, { spawned := none, sentNow := false,
           closeCmd := false, focusReq := true })

/-- The UI refresh loop: fold `updateFrame` over a sequence of frame inputs,
collecting the per-frame outputs. -/
def runFrames (s : AppState) : List FrameInput → AppState × List FrameOutput
  | [] => (s, [])
  | inp :: rest =>
    let step := updateFrame s inp
    let tail := runFrames step.1 rest
    (tail.1, step.2 :: tail.2)

/-- How many times `waiter.send(())` runs on account of one frame: once for
a direct send, and — for a spawned pipeline — the number of `signalSend`
events in that thread's trace under the ambient environment. -/
def outSignals (env : PipelineEnv) (o : FrameOutput) : Nat :=
  (if o.sentNow then 1 else 0) +
    (match o.spawned with
     | some (t, c) => (pipelineThread c t env).count Event.signalSend
     | none => 0)

/-- Total number of completion-signal sends over a whole run. -/
def totalSignals (env : PipelineEnv) (os : List FrameOutput) : Nat :=
  (os.map (outSignals env)).sum

/-- Result of `recv.recv()` in `main` (main.rs line 40), observed after the
UI loop and any spawned thread have finished: a written signal is received;
if every sender was dropped without a send, `recv` returns a disconnection
error immediately instead of blocking. -/
inductive RecvResult
  | received
  | disconnected
deriving DecidableEq, Repr

/-- `oneshot::Receiver::recv` as a function of how many sends happened. -/
def oneshotRecv (signals : Nat) : RecvResult :=
  if signals = 0 then RecvResult.disconnected else RecvResult.received

/-- Playback-submission events. -/
def isPlayEvt : Event → Bool
  | Event.playSubmit _ _ => true
  | _ => false

/-- Post-roll wait events. -/
def isWaitEvt : Event → Bool
  | Event.postWait _ => true
  | _ => false

/-! ### Concrete fixtures used to evaluate the model on closed inputs -/

/-- A concrete configuration with `output_device = "Speakers"`. -/
def cfgTest : Configuration :=
  { font_size := 24.0, width := 400.0, x := 0.0, y := 0.0,
    gcloud_token := "tok", gcloud_language := "en-US",
    gcloud_voice := "en-US-Standard-A", output_device := "Speakers" }

/-- Environment whose only output device is named `"USB Speakers"` and whose
stream cannot be opened. -/
def envUSB : PipelineEnv :=
  { http := HttpResult.jsonOk [("audioContent", "AAAA")],
    b64 := fun _ => some [0, 1],
    outputDevices := some [⟨0, some "USB Speakers"⟩],
    openStream := fun _ => false,
    wavDecoder := fun _ => some (some 2000),
    playOk := fun _ => true }

/-- Environment where everything succeeds except that the decoded container
reports no total duration (`total_duration()` returns `None`). -/
def envNoDur : PipelineEnv :=
  { http := HttpResult.jsonOk [("audioContent", "enc")],
    b64 := fun _ => some [7],
    outputDevices := some [⟨0, some "Speakers"⟩],
    openStream := fun _ => true,
    wavDecoder := fun _ => some none,
    playOk := fun _ => true }

/-- Environment where everything succeeds up to `Decoder::new_wav`, which
fails (the bytes are not a valid WAV container). -/
def envWavErr : PipelineEnv :=
  { http := HttpResult.jsonOk [("audioContent", "enc")],
    b64 := fun _ => some [7],
    outputDevices := some [⟨0, some "Speakers"⟩],
    openStream := fun _ => true,
    wavDecoder := fun _ => none,
    playOk := fun _ => true }

/-- Environment whose parsed response mapping lacks `audioContent`. -/
def envNoAudio : PipelineEnv :=
  { http := HttpResult.jsonOk [("error", "quota")],
    b64 := fun _ => none,
    outputDevices := none,
    openStream := fun _ => false,
    wavDecoder := fun _ => none,
    playOk := fun _ => false }

/-! ### Helper lemmas about the pipeline trace -/

/-- Events that can be emitted from inside the device loop. -/
def isLoopEvt : Event → Bool
  | Event.readName _ _ => true
  | Event.nameMatch _ _ => true
  | Event.openStream _ _ => true
  | Event.wavDecode _ => true
  | Event.readDuration _ => true
  | Event.playSubmit _ _ => true
  | Event.postWait _ => true
  | _ => false

/-- Events that can be emitted from inside the `if let` cascade. -/
def isBodyEvt : Event → Bool
  | Event.httpPost _ _ _ => false
  | Event.signalSend => false
  | _ => true

theorem attemptDevice_all_loopEvt (env : PipelineEnv) (wav : List Nat) (d : Device) :
    (attemptDevice env wav d).all isLoopEvt = true := by
  unfold attemptDevice
  rcases hw : env.wavDecoder wav with _ | _ | dur <;>
    by_cases ho : env.openStream d.id <;>
    by_cases hp : env.playOk d.id <;>
    simp [hw, ho, hp, isLoopEvt]

theorem deviceLoop_all_loopEvt (env : PipelineEnv) (target : String) (wav : List Nat)
    (ds : List Device) : (deviceLoop env target wav ds).all isLoopEvt = true := by
  induction ds with
  | nil => rfl
  | cons d rest ih =>
    rcases hn : d.name? with _ | nm
    · simpa [deviceLoop, hn, isLoopEvt] using ih
    · by_cases hm : strContainsStr nm target
      · simpa [deviceLoop, hn, hm, isLoopEvt] using attemptDevice_all_loopEvt env wav d
      · simpa [deviceLoop, hn, hm, isLoopEvt] using ih

theorem pipelineBody_all_bodyEvt (config : Configuration) (env : PipelineEnv) :
    (pipelineBody config env).all isBodyEvt = true := by
  unfold pipelineBody
  rcases hh : env.http with _ | _ | fields
  · rfl
  · rfl
  · rcases hf : lookupField fields "audioContent" with _ | encoded
    · simp [hf, isBodyEvt]
    · rcases hb : env.b64 encoded with _ | wav
      · simp [hf, hb, isBodyEvt]
      · rcases hd : env.outputDevices with _ | devices
        · simp [hf, hb, hd, isBodyEvt]
        · simp only [hf, hb, hd]
          have hall := deviceLoop_all_loopEvt env config.output_device wav devices
          simp only [List.all_eq_true] at hall ⊢
          intro e he
          simp only [List.mem_cons] at he
          rcases he with rfl | rfl | rfl | rfl | he
          · rfl
          · rfl
          · rfl
          · rfl
          · have h2 := hall e he
            revert h2
            rcases e <;> simp [isLoopEvt, isBodyEvt]

theorem signalSend_not_mem_body (config : Configuration) (env : PipelineEnv) :
    Event.signalSend ∉ pipelineBody config env := by
  intro h
  have hall := pipelineBody_all_bodyEvt config env
  rw [List.all_eq_true] at hall
  have := hall _ h
  simp [isBodyEvt] at this

/-- The spawned thread sends the completion signal exactly once, whatever the
environment does: `waiter.send(())` is the unconditional last statement of the
thread, and no other statement sends. -/
theorem pipelineThread_signal_count (config : Configuration) (text : String)
    (env : PipelineEnv) :
    (pipelineThread config text env).count Event.signalSend = 1 := by
  unfold pipelineThread
  rw [List.count_append, List.count_cons]
  have h0 : (pipelineBody config env).count Event.signalSend = 0 :=
    List.count_eq_zero.mpr (signalSend_not_mem_body config env)
  simp [h0]

theorem devMatches_iff {target : String} {d : Device} :
    devMatches target d = true ↔
      ∃ nm, d.name? = some nm ∧ strContainsStr nm target = true := by
  unfold devMatches
  rcases hn : d.name? with _ | nm <;> simp [hn]

theorem mem_attemptDevice_openStream_id {env : PipelineEnv} {wav : List Nat}
    {d : Device} {i : Nat} {ok : Bool}
    (h : Event.openStream i ok ∈ attemptDevice env wav d) : i = d.id := by
  unfold attemptDevice at h
  rcases hw : env.wavDecoder wav with _ | _ | dur <;>
    by_cases ho : env.openStream d.id <;>
    by_cases hp : env.playOk d.id <;>
    simp [hw, ho, hp] at h <;>
    tauto

theorem attemptDevice_head_openStream (env : PipelineEnv) (wav : List Nat)
    (d : Device) :
    Event.openStream d.id (env.openStream d.id) ∈ attemptDevice env wav d := by
  unfold attemptDevice
  by_cases ho : env.openStream d.id <;> simp [ho]

/-- When `env.wavDecoder` fails on the bytes, the attempt stops right after
the `Decoder::new_wav` call. -/
theorem attemptDevice_of_wavErr {env : PipelineEnv} {wav : List Nat}
    (hw : env.wavDecoder wav = none) (d : Device) :
    attemptDevice env wav d =
      if env.openStream d.id then
        [Event.openStream d.id true, Event.wavDecode false]
      else
        [Event.openStream d.id false] := by
  unfold attemptDevice
  simp only [hw]

/-- When the decoder reports no total duration, the attempt stops right after
the `total_duration()` call: nothing is played and there is no wait. -/
theorem attemptDevice_of_noDur {env : PipelineEnv} {wav : List Nat}
    (hw : env.wavDecoder wav = some none) (d : Device) :
    attemptDevice env wav d =
      if env.openStream d.id then
        [Event.openStream d.id true, Event.wavDecode true, Event.readDuration false]
      else
        [Event.openStream d.id false] := by
  unfold attemptDevice
  simp only [hw]

theorem mem_attemptDevice_wavDecode_false {env : PipelineEnv} {wav : List Nat}
    {d : Device} (h : Event.wavDecode false ∈ attemptDevice env wav d) :
    env.wavDecoder wav = none := by
  unfold attemptDevice at h
  rcases hw : env.wavDecoder wav with _ | _ | dur <;>
    by_cases ho : env.openStream d.id <;>
    by_cases hp : env.playOk d.id <;>
    simp [hw, ho, hp] at h <;>
    tauto

theorem mem_attemptDevice_wavDecode_open {env : PipelineEnv} {wav : List Nat}
    {d : Device} {b : Bool} (h : Event.wavDecode b ∈ attemptDevice env wav d) :
    env.openStream d.id = true := by
  unfold attemptDevice at h
  rcases hw : env.wavDecoder wav with _ | _ | dur <;>
    by_cases ho : env.openStream d.id <;>
    by_cases hp : env.playOk d.id <;>
    simp [hw, ho, hp] at h <;>
    tauto

/-- Structure of the loop trace when some device matches: a prefix of pure
scanning events (`readName`/`nameMatch`) followed by the attempt on the FIRST
matching device, and nothing after it (the `break`). -/
theorem deviceLoop_eq_of_first (env : PipelineEnv) (target : String) (wav : List Nat) :
    ∀ ds d, firstMatchingDevice target ds = some d →
      ∃ pre, deviceLoop env target wav ds = pre ++ attemptDevice env wav d ∧
        ∀ e ∈ pre, (∃ i b, e = Event.readName i b) ∨ ∃ i b, e = Event.nameMatch i b := by
  intro ds
  induction ds with
  | nil => intro d h; simp [firstMatchingDevice] at h
  | cons d0 rest ih =>
    intro d h
    by_cases hm : devMatches target d0
    · rw [firstMatchingDevice, List.find?_cons_of_pos _ hm] at h
      rcases Option.some_injective _ h with rfl
      rcases devMatches_iff.mp hm with ⟨nm, hn, hc⟩
      refine ⟨[Event.readName d0.id true, Event.nameMatch d0.id true], ?_, ?_⟩
      · simp [deviceLoop, hn, hc]
      · intro e he
        simp only [List.mem_cons, List.not_mem_nil, or_false] at he
        rcases he with rfl | rfl
        · exact Or.inl ⟨d0.id, true, rfl⟩
        · exact Or.inr ⟨d0.id, true, rfl⟩
    · rw [firstMatchingDevice, List.find?_cons_of_neg _ hm] at h
      rcases ih d h with ⟨pre, hpre, hshape⟩
      rcases hn : d0.name? with _ | nm
      · refine ⟨Event.readName d0.id false :: pre, ?_, ?_⟩
        · simp [deviceLoop, hn, hpre]
        · intro e he
          rcases List.mem_cons.mp he with rfl | he
          · exact Or.inl ⟨d0.id, false, rfl⟩
          · exact hshape e he
      · have hc : strContainsStr nm target = false := by
          by_contra hcc
          exact hm (devMatches_iff.mpr ⟨nm, hn, by simpa using hcc⟩)
        refine ⟨Event.readName d0.id true :: Event.nameMatch d0.id false :: pre, ?_, ?_⟩
        · simp [deviceLoop, hn, hc, hpre]
        · intro e he
          rcases List.mem_cons.mp he with rfl | he
          · exact Or.inl ⟨d0.id, true, rfl⟩
          rcases List.mem_cons.mp he with rfl | he
          · exact Or.inr ⟨d0.id, false, rfl⟩
          · exact hshape e he

/-- Structure of the loop trace when no device matches: only scanning
events occur. -/
theorem deviceLoop_eq_of_none (env : PipelineEnv) (target : String) (wav : List Nat) :
    ∀ ds, firstMatchingDevice target ds = none →
      ∀ e ∈ deviceLoop env target wav ds,
        (∃ i b, e = Event.readName i b) ∨ ∃ i b, e = Event.nameMatch i b := by
  intro ds
  induction ds with
  | nil => intro _ e he; simp [deviceLoop] at he
  | cons d0 rest ih =>
    intro h e he
    by_cases hm : devMatches target d0
    · rw [firstMatchingDevice, List.find?_cons_of_pos _ hm] at h
      cases h
    · rw [firstMatchingDevice, List.find?_cons_of_neg _ hm] at h
      rcases hn : d0.name? with _ | nm
      · rw [deviceLoop, hn] at he
        rcases List.mem_cons.mp he with rfl | he
        · exact Or.inl ⟨d0.id, false, rfl⟩
        · exact ih h e he
      · have hc : strContainsStr nm target = false := by
          by_contra hcc
          exact hm (devMatches_iff.mpr ⟨nm, hn, by simpa using hcc⟩)
        rw [deviceLoop, hn] at he
        simp only [hc, Bool.false_eq_true, if_false, List.mem_cons] at he
        rcases he with rfl | rfl | he
        · exact Or.inl ⟨d0.id, true, rfl⟩
        · exact Or.inr ⟨d0.id, false, rfl⟩
        · exact ih h e he

/-! ### Helper lemmas about the UI lifecycle -/

/-- While the box holds focus, or the grace period has not elapsed, `update`
only re-requests focus: no spawn, no send, no close, state text updated. -/
theorem updateFrame_idle {inp : FrameInput}
    (h : inp.hasFocus = true ∨ inp.graceElapsed = false) (s : AppState) :
    updateFrame s inp =
      ({ s with text := inp.text },
       { spawned := none, sentNow := false, closeCmd := false, focusReq := true }) := by
  unfold updateFrame
  rcases h with h | h <;> simp [h]

/-- Once the oneshot sender has been taken, `update` never spawns nor sends
again, and the sender stays gone. -/
theorem updateFrame_waiter_false {s : AppState} (h : s.waiter = false)
    (inp : FrameInput) :
    (updateFrame s inp).1.waiter = false ∧
      (updateFrame s inp).2.sentNow = false ∧
      (updateFrame s inp).2.spawned = none := by
  unfold updateFrame
  by_cases h1 : !inp.hasFocus && inp.graceElapsed <;>
    by_cases h2 : inp.enterPressed <;>
    simp [h1, h2, h]

theorem runFrames_waiter_false (env : PipelineEnv) :
    ∀ (fs : List FrameInput) (s : AppState), s.waiter = false →
      (runFrames s fs).1.waiter = false ∧
        totalSignals env (runFrames s fs).2 = 0 := by
  intro fs
  induction fs with
  | nil => intro s h; exact ⟨h, rfl⟩
  | cons f rest ih =>
    intro s h
    rcases updateFrame_waiter_false h f with ⟨hw, hs, hsp⟩
    rcases ih (updateFrame s f).1 hw with ⟨ih1, ih2⟩
    refine ⟨by simpa [runFrames] using ih1, ?_⟩
    simp [runFrames, totalSignals, outSignals, hs, hsp] at ih2 ⊢
    simpa [totalSignals] using ih2

/-- Over any run, the completion signal is sent at most once when the sender
is still held at the start, and never when it is already gone. -/
theorem totalSignals_le (env : PipelineEnv) :
    ∀ (fs : List FrameInput) (s : AppState),
      totalSignals env (runFrames s fs).2 ≤ if s.waiter then 1 else 0 := by
  intro fs
  induction fs with
  | nil => intro s; simp [runFrames, totalSignals]
  | cons f rest ih =>
    intro s
    rcases hw : s.waiter with _ | _
    · rcases runFrames_waiter_false env (f :: rest) s hw with ⟨_, h0⟩
      simp [h0]
    · by_cases h1 : !f.hasFocus && f.graceElapsed
      · by_cases h2 : f.enterPressed
        · have hstep : updateFrame s f =
              ({ s with text := f.text, waiter := false },
               { spawned := some (f.text, s.config), sentNow := false,
                 closeCmd := true, focusReq := false }) := by
            unfold updateFrame
            simp [h1, h2, hw]
          rcases runFrames_waiter_false env rest
              ({ s with text := f.text, waiter := false}) rfl with ⟨_, h0⟩
          simp [runFrames, hstep, totalSignals, outSignals,
            pipelineThread_signal_count, hw]
          simpa [totalSignals] using Nat.le_of_eq h0
        · have hstep : updateFrame s f =
              ({ s with text := f.text, waiter := false },
               { spawned := none, sentNow := true,
                 closeCmd := true, focusReq := false }) := by
            unfold updateFrame
            simp [h1, h2, hw]
          rcases runFrames_waiter_false env rest
              ({ s with text := f.text, waiter := false}) rfl with ⟨_, h0⟩
          simp [runFrames, hstep, totalSignals, outSignals, hw]
          simpa [totalSignals] using Nat.le_of_eq h0
      · have hidle : f.hasFocus = true ∨ f.graceElapsed = false := by
          by_cases hf : f.hasFocus = true
          · exact Or.inl hf
          · refine Or.inr ?_
            by_contra hg
            rw [Bool.not_eq_false] at hg
            rw [Bool.not_eq_true] at hf
            exact h1 (by simp [hf, hg])
        have hstep := updateFrame_idle hidle s
        have ihr := ih ({ s with text := f.text })
        simp [runFrames, hstep, totalSignals, outSignals, hw] at ihr ⊢
        simpa [totalSignals] using ihr

theorem containsSeq_nil_pat : ∀ l : List Char, containsSeq [] l = true
  | [] => rfl
  | _ :: _ => by simp [containsSeq, leadsWith]

/-- Rust `s.contains("")` is true for every `s`. -/
theorem strContainsStr_empty (s : String) : strContainsStr s "" = true := by
  unfold strContainsStr
  have h : ("" : String).data = [] := rfl
  rw [h]
  exact containsSeq_nil_pat s.data

/-- Under the empty target, the device-match test accepts exactly the
devices with a readable name. -/
theorem devMatches_empty (d : Device) : devMatches "" d = d.name?.isSome := by
  unfold devMatches
  rcases hn : d.name? with _ | nm
  · rfl
  · simp [strContainsStr_empty]

theorem firstMatchingDevice_append {target : String} {d : Device}
    (hd : devMatches target d = true) (post : List Device) :
    ∀ pre, (∀ d' ∈ pre, devMatches target d' = false) →
      firstMatchingDevice target (pre ++ d :: post) = some d := by
  intro pre
  induction pre with
  | nil =>
    intro _
    simp only [List.nil_append, firstMatchingDevice]
    rw [List.find?_cons_of_pos _ hd]
  | cons d0 pre' ih =>
    intro hpre
    have h0 : devMatches target d0 = false := hpre d0 (by simp)
    have hrec := ih (fun d' hd' => hpre d' (by simp [hd']))
    simp only [List.cons_append, firstMatchingDevice] at hrec ⊢
    rw [List.find?_cons_of_neg _ (by simp [h0])]
    exact hrec

/-- The loop `break` in one equation: once the first matching device has
been reached, the devices after it make no difference to the trace, however
the attempt on the matching device turns out. -/
theorem deviceLoop_break (env : PipelineEnv) (target : String) (wav : List Nat)
    {d : Device} (hd : devMatches target d = true) (post : List Device) :
    ∀ pre, (∀ d' ∈ pre, devMatches target d' = false) →
      deviceLoop env target wav (pre ++ d :: post) =
        deviceLoop env target wav (pre ++ [d]) := by
  intro pre
  induction pre with
  | nil =>
    intro _
    rcases devMatches_iff.mp hd with ⟨nm, hn, hc⟩
    simp [deviceLoop, hn, hc]
  | cons d0 pre' ih =>
    intro hpre
    have h0 : devMatches target d0 = false := hpre d0 (by simp)
    have hrec := ih (fun d' hd' => hpre d' (by simp [hd']))
    rcases hn : d0.name? with _ | nm
    · simp only [List.cons_append, deviceLoop, hn]
      exact congrArg (fun t => Event.readName d0.id false :: t) hrec
    · have hc : strContainsStr nm target = false := by
        have h0' := h0
        unfold devMatches at h0'
        rw [hn] at h0'
        exact h0'
      simp only [List.cons_append, deviceLoop, hn, hc, Bool.false_eq_true, if_false]
      exact congrArg
        (fun t => Event.readName d0.id true :: Event.nameMatch d0.id false :: t) hrec

/-- Every `openStream` event of the loop concerns the first matching
device. -/
theorem deviceLoop_openStream_id (env : PipelineEnv) (target : String)
    (wav : List Nat) (ds : List Device) {d : Device}
    (hfm : firstMatchingDevice target ds = some d) {i : Nat} {ok : Bool}
    (h : Event.openStream i ok ∈ deviceLoop env target wav ds) : i = d.id := by
  rcases deviceLoop_eq_of_first env target wav ds d hfm with ⟨pre, heq, hshape⟩
  rw [heq] at h
  rcases List.mem_append.mp h with h | h
  · rcases hshape _ h with ⟨_, _, h'⟩ | ⟨_, _, h'⟩ <;> cases h'
  · exact mem_attemptDevice_openStream_id h

/-- When `Decoder::new_wav` fails, nothing is played and there is no
post-roll wait, anywhere in the attempt. -/
theorem attemptDevice_wavErr_no_play {env : PipelineEnv} {wav : List Nat}
    (hw : env.wavDecoder wav = none) (d : Device) :
    (∀ i ok, Event.playSubmit i ok ∉ attemptDevice env wav d) ∧
      ∀ ms, Event.postWait ms ∉ attemptDevice env wav d := by
  rw [attemptDevice_of_wavErr hw]
  constructor
  · intro i ok h
    by_cases ho : env.openStream d.id <;> simp [ho] at h
  · intro ms h
    by_cases ho : env.openStream d.id <;> simp [ho] at h

/-- When `total_duration()` is `None`, nothing is played and there is no
post-roll wait, anywhere in the attempt. -/
theorem attemptDevice_noDur_no_play {env : PipelineEnv} {wav : List Nat}
    (hw : env.wavDecoder wav = some none) (d : Device) :
    (∀ i ok, Event.playSubmit i ok ∉ attemptDevice env wav d) ∧
      ∀ ms, Event.postWait ms ∉ attemptDevice env wav d := by
  rw [attemptDevice_of_noDur hw]
  constructor
  · intro i ok h
    by_cases ho : env.openStream d.id <;> simp [ho] at h
  · intro ms h
    by_cases ho : env.openStream d.id <;> simp [ho] at h

theorem mem_pipelineThread_iff {config : Configuration} {text : String}
    {env : PipelineEnv} {e : Event} :
    e ∈ pipelineThread config text env ↔
      e = Event.httpPost text config.gcloud_language config.gcloud_voice ∨
        e ∈ pipelineBody config env ∨ e = Event.signalSend := by
  simp [pipelineThread]

/-- The `if let` cascade when everything up to device enumeration
succeeds. -/
theorem pipelineBody_eq_loop {config : Configuration} {env : PipelineEnv}
    {fields : List (String × String)} {encoded : String} {wav : List Nat}
    {devices : List Device} (hh : env.http = HttpResult.jsonOk fields)
    (hf : lookupField fields "audioContent" = some encoded)
    (hb : env.b64 encoded = some wav)
    (hd : env.outputDevices = some devices) :
    pipelineBody config env =
      Event.jsonParsed true :: Event.extractField true :: Event.b64Decode true ::
        Event.enumDevices true ::
          deviceLoop env config.output_device wav devices := by
  unfold pipelineBody
  simp [hh, hf, hb, hd]

/-- A loop event in the cascade pins down the cascade's successful path. -/
theorem mem_body_loop {config : Configuration} {env : PipelineEnv} {e : Event}
    (hl : isLoopEvt e = true) (h : e ∈ pipelineBody config env) :
    ∃ fields encoded wav devices,
      env.http = HttpResult.jsonOk fields ∧
        lookupField fields "audioContent" = some encoded ∧
        env.b64 encoded = some wav ∧
        env.outputDevices = some devices ∧
        e ∈ deviceLoop env config.output_device wav devices := by
  unfold pipelineBody at h
  rcases hh : env.http with _ | _ | fields <;> simp only [hh] at h
  · exact absurd h (List.not_mem_nil e)
  · rcases List.mem_singleton.mp h with rfl; cases hl
  · rcases hf : lookupField fields "audioContent" with _ | encoded <;>
      simp only [hf] at h
    · rcases List.mem_cons.mp h with rfl | h
      · cases hl
      rcases List.mem_singleton.mp h with rfl; cases hl
    · rcases List.mem_cons.mp h with rfl | h
      · cases hl
      rcases List.mem_cons.mp h with rfl | h
      · cases hl
      rcases hb : env.b64 encoded with _ | wav <;> simp only [hb] at h
      · rcases List.mem_singleton.mp h with rfl; cases hl
      · rcases List.mem_cons.mp h with rfl | h
        · cases hl
        rcases hd : env.outputDevices with _ | devices <;> simp only [hd] at h
        · rcases List.mem_singleton.mp h with rfl; cases hl
        · rcases List.mem_cons.mp h with rfl | h
          · cases hl
          exact ⟨fields, encoded, wav, devices, rfl, hf, hb, rfl, h⟩

/-- If some frame reaches the trigger decision while the sender is still
held, the completion signal is sent exactly once over the whole run. -/
theorem totalSignals_eq_one (env : PipelineEnv) :
    ∀ (fs : List FrameInput) (s : AppState), s.waiter = true →
      (∃ f ∈ fs, f.hasFocus = false ∧ f.graceElapsed = true) →
      totalSignals env (runFrames s fs).2 = 1 := by
  intro fs
  induction fs with
  | nil => intro s _ hex; simp at hex
  | cons f rest ih =>
    intro s hw hex
    by_cases h1 : f.hasFocus = false ∧ f.graceElapsed = true
    · by_cases h2 : f.enterPressed
      · have hstep : updateFrame s f =
            ({ s with text := f.text, waiter := false },
             { spawned := some (f.text, s.config), sentNow := false,
               closeCmd := true, focusReq := false }) := by
          unfold updateFrame
          simp [h1.1, h1.2, h2, hw]
        rcases runFrames_waiter_false env rest
            ({ s with text := f.text, waiter := false }) rfl with ⟨_, h0⟩
        simp [runFrames, hstep, totalSignals, outSignals, pipelineThread_signal_count]
        simpa [totalSignals] using h0
      · have hstep : updateFrame s f =
            ({ s with text := f.text, waiter := false },
             { spawned := none, sentNow := true,
               closeCmd := true, focusReq := false }) := by
          unfold updateFrame
          simp [h1.1, h1.2, h2, hw]
        rcases runFrames_waiter_false env rest
            ({ s with text := f.text, waiter := false }) rfl with ⟨_, h0⟩
        simp [runFrames, hstep, totalSignals, outSignals]
        simpa [totalSignals] using h0
    · have hidle : f.hasFocus = true ∨ f.graceElapsed = false := by
        by_cases hf : f.hasFocus = true
        · exact Or.inl hf
        · refine Or.inr ?_
          by_contra hg
          rw [Bool.not_eq_false] at hg
          rw [Bool.not_eq_true] at hf
          exact h1 ⟨hf, hg⟩
      have hstep := updateFrame_idle hidle s
      have hex' : ∃ g ∈ rest, g.hasFocus = false ∧ g.graceElapsed = true := by
        rcases hex with ⟨g, hg, hgp⟩
        rcases List.mem_cons.mp hg with rfl | hg
        · exact absurd hgp h1
        · exact ⟨g, hg, hgp⟩
      have ihr := ih ({ s with text := f.text }) hw hex'
      simp [runFrames, hstep, totalSignals, outSignals]
      simpa [totalSignals] using ihr

/-- A run in which every frame is idle (focused, or within the grace period)
leaves the sender untouched, sends nothing, and only re-requests focus. -/
theorem runFrames_idle (env : PipelineEnv) :
    ∀ (fs : List FrameInput) (s : AppState),
      (∀ f ∈ fs, f.hasFocus = true ∨ f.graceElapsed = false) →
      (runFrames s fs).1.waiter = s.waiter ∧
        totalSignals env (runFrames s fs).2 = 0 ∧
        ∀ o ∈ (runFrames s fs).2, o.closeCmd = false ∧ o.spawned = none ∧
          o.sentNow = false ∧ o.focusReq = true := by
  intro fs
  induction fs with
  | nil =>
    intro s _
    refine ⟨rfl, rfl, ?_⟩
    intro o ho
    exact absurd ho (List.not_mem_nil o)
  | cons f rest ih =>
    intro s hall
    have hstep := updateFrame_idle (hall f (by simp)) s
    have ihr := ih ({ s with text := f.text }) (fun g hg => hall g (by simp [hg]))
    refine ⟨?_, ?_, ?_⟩
    · simpa [runFrames, hstep] using ihr.1
    · have h0 := ihr.2.1
      simp [runFrames, hstep, totalSignals, outSignals]
      simpa [totalSignals] using h0
    · intro o ho
      simp only [runFrames, hstep] at ho
      rcases List.mem_cons.mp ho with rfl | ho
      · exact ⟨rfl, rfl, rfl, rfl⟩
      · exact ihr.2.2 o ho

/-- All possible shapes of the `if let` cascade's trace, one per stage at
which the cascade stops. -/
theorem pipelineBody_shape (config : Configuration) (env : PipelineEnv) :
    pipelineBody config env = [] ∨
      pipelineBody config env = [Event.jsonParsed false] ∨
      pipelineBody config env = [Event.jsonParsed true, Event.extractField false] ∨
      pipelineBody config env =
        [Event.jsonParsed true, Event.extractField true, Event.b64Decode false] ∨
      pipelineBody config env =
        [Event.jsonParsed true, Event.extractField true, Event.b64Decode true,
         Event.enumDevices false] ∨
      ∃ wav devices,
        pipelineBody config env =
          Event.jsonParsed true :: Event.extractField true :: Event.b64Decode true ::
            Event.enumDevices true ::
              deviceLoop env config.output_device wav devices := by
  unfold pipelineBody
  rcases hh : env.http with _ | _ | fields
  · exact Or.inl rfl
  · exact Or.inr (Or.inl rfl)
  · rcases hf : lookupField fields "audioContent" with _ | encoded
    · exact Or.inr (Or.inr (Or.inl (by simp [hf])))
    · rcases hb : env.b64 encoded with _ | wav
      · exact Or.inr (Or.inr (Or.inr (Or.inl (by simp [hf, hb]))))
      · rcases hd : env.outputDevices with _ | devices
        · exact Or.inr (Or.inr (Or.inr (Or.inr (Or.inl (by simp [hf, hb, hd])))))
        · exact Or.inr (Or.inr (Or.inr (Or.inr (Or.inr
            ⟨wav, devices, by simp [hf, hb, hd]⟩))))

/-- A `playSubmit` or `postWait` event in the loop can only come from the
attempt on the first matching device. -/
theorem deviceLoop_play_wait_attempt {env : PipelineEnv} {target : String}
    {wav : List Nat} {ds : List Device} {e : Event}
    (hshapee : (∀ i b, e ≠ Event.readName i b) ∧ ∀ i b, e ≠ Event.nameMatch i b)
    (h : e ∈ deviceLoop env target wav ds) :
    ∃ d, firstMatchingDevice target ds = some d ∧ e ∈ attemptDevice env wav d := by
  rcases hfm : firstMatchingDevice target ds with _ | d
  · rcases deviceLoop_eq_of_none env target wav ds hfm e h with
      ⟨i, b, rfl⟩ | ⟨i, b, rfl⟩
    · exact absurd rfl (hshapee.1 i b)
    · exact absurd rfl (hshapee.2 i b)
  · rcases deviceLoop_eq_of_first env target wav ds d hfm with ⟨pre, heq, hshape⟩
    rw [heq] at h
    rcases List.mem_append.mp h with h | h
    · rcases hshape e h with ⟨i, b, rfl⟩ | ⟨i, b, rfl⟩
      · exact absurd rfl (hshapee.1 i b)
      · exact absurd rfl (hshapee.2 i b)
    · exact ⟨d, rfl, h⟩

/-! ### Claim theorems -/

/-- C1 (counterexample): the claim says selection is by exact name equality,
so the target `"Speakers"` must not match a device named `"USB Speakers"`.
On the code it does: with target `"Speakers"` the single device named
`"USB Speakers"` passes the match test and is the device whose stream the
loop attempts to open. -/
theorem C1_counterexample :
    devMatches "Speakers" ⟨0, some "USB Speakers"⟩ = true ∧
      deviceLoop envUSB "Speakers" [0, 1] [⟨0, some "USB Speakers"⟩] =
        [Event.readName 0 true, Event.nameMatch 0 true,
         Event.openStream 0 false] := by
  exact ⟨by decide, by decide⟩

/-- C1 (amended): `name.contains(&config.output_device)` matches by substring
containment, not equality: for every enumerated device list, the device whose
stream is attempted is exactly the first device whose readable name CONTAINS
the configured target; in particular `"Speakers"` matches both a device named
`"Speakers"` and one named `"USB Speakers"`. -/
theorem C1_substring_match (env : PipelineEnv) (target : String) (wav : List Nat)
    (ds : List Device) :
    (∀ i ok, Event.openStream i ok ∈ deviceLoop env target wav ds →
        ∃ d, firstMatchingDevice target ds = some d ∧ i = d.id) ∧
      (∀ d, firstMatchingDevice target ds = some d →
        ∃ ok, Event.openStream d.id ok ∈ deviceLoop env target wav ds) ∧
      devMatches "Speakers" ⟨0, some "Speakers"⟩ = true ∧
      devMatches "Speakers" ⟨1, some "USB Speakers"⟩ = true := by
  refine ⟨?_, ?_, by decide, by decide⟩
  · intro i ok h
    rcases hfm : firstMatchingDevice target ds with _ | d
    · rcases deviceLoop_eq_of_none env target wav ds hfm _ h with
        ⟨_, _, h'⟩ | ⟨_, _, h'⟩ <;> cases h'
    · exact ⟨d, rfl, deviceLoop_openStream_id env target wav ds hfm h⟩
  · intro d hfm
    rcases deviceLoop_eq_of_first env target wav ds d hfm with ⟨pre, heq, _⟩
    refine ⟨env.openStream d.id, ?_⟩
    rw [heq]
    exact List.mem_append.mpr (Or.inr (attemptDevice_head_openStream env wav d))

/-- C1 (witness for the amended claim): applied to the concrete single-device
list named `"USB Speakers"` with target `"Speakers"`, whose stream-open event
is in the trace, so a matching device was found. -/
theorem C1_substring_match_witness :
    (firstMatchingDevice "Speakers" [⟨0, some "USB Speakers"⟩]).isSome = true := by
  rcases (C1_substring_match envUSB "Speakers" [0, 1]
      [⟨0, some "USB Speakers"⟩]).1 0 false (by decide) with ⟨d, hd, _⟩
  rw [hd]
  rfl

/-- C8: only the first enumerated device whose readable name matches is ever
attempted: the trace over `pre ++ d :: post` (no match in `pre`, `d` matches)
is the same whatever comes after `d` — the loop breaks after `d` even when
opening the stream, decoding, reading the duration, or submitting playback
fails — and every stream-open event concerns `d` itself. -/
theorem C8_break_on_first_match (env : PipelineEnv) (target : String)
    (wav : List Nat) (pre post : List Device) (d : Device)
    (hpre : ∀ d' ∈ pre, devMatches target d' = false)
    (hd : devMatches target d = true) :
    deviceLoop env target wav (pre ++ d :: post) =
        deviceLoop env target wav (pre ++ [d]) ∧
      ∀ i ok, Event.openStream i ok ∈ deviceLoop env target wav (pre ++ d :: post) →
        i = d.id := by
  refine ⟨deviceLoop_break env target wav hd post pre hpre, ?_⟩
  intro i ok h
  exact deviceLoop_openStream_id env target wav _
    (firstMatchingDevice_append hd post pre hpre) h

/-- C8 (witness): device 1 named `"Speakers"` matches, its stream open fails
in `envUSB`, yet the trace ignores the later matching device 2 entirely. -/
theorem C8_break_on_first_match_witness :
    deviceLoop envUSB "Speakers" [0, 1]
        [⟨0, some "Other"⟩, ⟨1, some "Speakers"⟩, ⟨2, some "Speakers"⟩] =
      deviceLoop envUSB "Speakers" [0, 1]
        [⟨0, some "Other"⟩, ⟨1, some "Speakers"⟩] :=
  (C8_break_on_first_match envUSB "Speakers" [0, 1] [⟨0, some "Other"⟩]
    [⟨2, some "Speakers"⟩] ⟨1, some "Speakers"⟩ (by decide) (by decide)).1

/-- C9: with the empty string configured as the output device, the name match
accepts every device whose name is readable: a readable head device is
matched and attempted regardless of its name, an unreadable head is skipped,
and the device the loop settles on is exactly the first device with a
readable name. -/
theorem C9_empty_device_name (env : PipelineEnv) (wav : List Nat)
    (d : Device) (rest : List Device) :
    (∀ nm, d.name? = some nm →
        deviceLoop env "" wav (d :: rest) =
          Event.readName d.id true :: Event.nameMatch d.id true ::
            attemptDevice env wav d) ∧
      (d.name? = none →
        deviceLoop env "" wav (d :: rest) =
          Event.readName d.id false :: deviceLoop env "" wav rest) ∧
      ∀ ds : List Device,
        firstMatchingDevice "" ds = ds.find? (fun d' => d'.name?.isSome) := by
  refine ⟨?_, ?_, ?_⟩
  · intro nm hn
    simp [deviceLoop, hn, strContainsStr_empty]
  · intro hn
    simp [deviceLoop, hn]
  · intro ds
    induction ds with
    | nil => rfl
    | cons d0 ds' ih =>
      by_cases h : d0.name?.isSome = true
      · rw [firstMatchingDevice,
          List.find?_cons_of_pos _ (by rw [devMatches_empty]; exact h)]
        simp [List.find?, h]
      · rw [firstMatchingDevice,
          List.find?_cons_of_neg _ (by rw [devMatches_empty]; exact h)]
        rw [Bool.not_eq_true] at h
        simp only [List.find?, h]
        exact ih

/-- C9 (witness): with the empty target, the device named `"USB Speakers"`
is matched and attempted. -/
theorem C9_empty_device_name_witness :
    deviceLoop envUSB "" [0, 1] [⟨0, some "USB Speakers"⟩] =
      Event.readName 0 true :: Event.nameMatch 0 true ::
        attemptDevice envUSB [0, 1] ⟨0, some "USB Speakers"⟩ :=
  (C9_empty_device_name envUSB [0, 1] ⟨0, some "USB Speakers"⟩ []).1
    "USB Speakers" rfl

/-- C2 (counterexample): in an environment where everything succeeds but the
decoded container reports no total duration, the claim says the full stream
is still played and a 25-second fallback times the post-roll wait.  On the
code, the run reaches `total_duration()`, gets `None`, and then neither
submits playback nor waits at all: the complete trace ends right after the
duration read. -/
theorem C2_counterexample :
    pipelineThread cfgTest "hi" envNoDur =
        [Event.httpPost "hi" "en-US" "en-US-Standard-A", Event.jsonParsed true,
         Event.extractField true, Event.b64Decode true, Event.enumDevices true,
         Event.readName 0 true, Event.nameMatch 0 true, Event.openStream 0 true,
         Event.wavDecode true, Event.readDuration false, Event.signalSend] ∧
      (pipelineThread cfgTest "hi" envNoDur).countP isPlayEvt = 0 ∧
      (pipelineThread cfgTest "hi" envNoDur).countP isWaitEvt = 0 := by
  exact ⟨by decide, by decide, by decide⟩

/-- C2 (amended): a decoded container with no derivable total duration is
treated as terminal for the invocation: whenever the WAV decoder reports
`total_duration() = None`, no playback is ever submitted and no post-roll
wait happens — there is no 25-second fallback and the stream is NOT played —
while the completion signal is still released. -/
theorem C2_no_duration_skips_playback (config : Configuration) (text : String)
    (env : PipelineEnv) (hw : ∀ w, env.wavDecoder w = some none) :
    (∀ i ok, Event.playSubmit i ok ∉ pipelineThread config text env) ∧
      (∀ ms, Event.postWait ms ∉ pipelineThread config text env) ∧
      Event.signalSend ∈ pipelineThread config text env := by
  refine ⟨?_, ?_, by simp [pipelineThread]⟩
  · intro i ok h
    rcases mem_pipelineThread_iff.mp h with h | h | h
    · cases h
    · rcases mem_body_loop (by rfl) h with
        ⟨fields, encoded, wav, devices, _, _, _, _, hmem⟩
      rcases deviceLoop_play_wait_attempt
          ⟨(by intro i' b hne; cases hne), (by intro i' b hne; cases hne)⟩ hmem with
        ⟨d, _, hatt⟩
      exact (attemptDevice_noDur_no_play (hw wav) d).1 i ok hatt
    · cases h
  · intro ms h
    rcases mem_pipelineThread_iff.mp h with h | h | h
    · cases h
    · rcases mem_body_loop (by rfl) h with
        ⟨fields, encoded, wav, devices, _, _, _, _, hmem⟩
      rcases deviceLoop_play_wait_attempt
          ⟨(by intro i' b hne; cases hne), (by intro i' b hne; cases hne)⟩ hmem with
        ⟨d, _, hatt⟩
      exact (attemptDevice_noDur_no_play (hw wav) d).2 ms hatt
    · cases h

/-- C2 (witness for the amended claim): in the concrete no-duration
environment, nothing is played yet the signal is sent. -/
theorem C2_no_duration_skips_playback_witness :
    Event.playSubmit 0 true ∉ pipelineThread cfgTest "hi" envNoDur ∧
      Event.signalSend ∈ pipelineThread cfgTest "hi" envNoDur :=
  ⟨(C2_no_duration_skips_playback cfgTest "hi" envNoDur (fun _ => rfl)).1 0 true,
   (C2_no_duration_skips_playback cfgTest "hi" envNoDur (fun _ => rfl)).2.2⟩

/-- C4 (counterexample): the claim says container decoding (stage 4) is
completed before device lookup (stage 5), and that a decode failure prevents
any device lookup.  On the code, in an environment where `Decoder::new_wav`
fails, the trace shows the device enumeration, name match and stream open
all happening BEFORE the failed container decode. -/
theorem C4_counterexample :
    pipelineThread cfgTest "hi" envWavErr =
        [Event.httpPost "hi" "en-US" "en-US-Standard-A", Event.jsonParsed true,
         Event.extractField true, Event.b64Decode true, Event.enumDevices true,
         Event.readName 0 true, Event.nameMatch 0 true, Event.openStream 0 true,
         Event.wavDecode false, Event.signalSend] ∧
      Event.enumDevices true ∈ pipelineThread cfgTest "hi" envWavErr ∧
      Event.wavDecode false ∈ pipelineThread cfgTest "hi" envWavErr := by
  exact ⟨by decide, by decide, by decide⟩

/-- C4 (amended): the stages run in strict order with short-circuiting, but
only BASE64 decoding precedes device lookup; container (WAV) decoding
happens after the matching device's stream is opened.  Precisely: a base64
failure prevents any device enumeration; device enumeration implies base64
succeeded; a container-decode event implies a stream was already opened; and
a container-decode failure prevents any playback (but not device lookup). -/
theorem C4_stage_order (config : Configuration) (text : String)
    (env : PipelineEnv) :
    (Event.b64Decode false ∈ pipelineThread config text env →
        ∀ b, Event.enumDevices b ∉ pipelineThread config text env) ∧
      ((∃ b, Event.enumDevices b ∈ pipelineThread config text env) →
        Event.b64Decode true ∈ pipelineThread config text env) ∧
      (∀ b, Event.wavDecode b ∈ pipelineThread config text env →
        ∃ i, Event.openStream i true ∈ pipelineThread config text env) ∧
      (Event.wavDecode false ∈ pipelineThread config text env →
        ∀ i ok, Event.playSubmit i ok ∉ pipelineThread config text env) := by
  have toBody : ∀ {e : Event}, isBodyEvt e = true → e ∈ pipelineThread config text env →
      e ∈ pipelineBody config env := by
    intro e hbe h
    rcases mem_pipelineThread_iff.mp h with h | h | h
    · rw [h] at hbe; cases hbe
    · exact h
    · rw [h] at hbe; cases hbe
  have loopNo : ∀ {e : Event} {wav : List Nat} {devices : List Device},
      isLoopEvt e = false → e ∉ deviceLoop env config.output_device wav devices := by
    intro e wav devices hle h
    have hall := List.all_eq_true.mp
      (deviceLoop_all_loopEvt env config.output_device wav devices) e h
    rw [hle] at hall
    cases hall
  refine ⟨?_, ?_, ?_, ?_⟩
  · intro hmem b hcb
    have hbody := toBody (by rfl) hmem
    have hcbody := toBody (by rfl) hcb
    rcases pipelineBody_shape config env with s | s | s | s | s | ⟨wav, devices, s⟩ <;>
      rw [s] at hbody hcbody <;> simp at hbody hcbody
    exact loopNo (by rfl) hbody
  · intro hex
    rcases hex with ⟨b, hmem⟩
    have hbody := toBody (by rfl) hmem
    rcases pipelineBody_shape config env with s | s | s | s | s | ⟨wav, devices, s⟩
    · rw [s] at hbody; simp at hbody
    · rw [s] at hbody; simp at hbody
    · rw [s] at hbody; simp at hbody
    · rw [s] at hbody; simp at hbody
    · exact mem_pipelineThread_iff.mpr (Or.inr (Or.inl (by rw [s]; simp)))
    · exact mem_pipelineThread_iff.mpr (Or.inr (Or.inl (by rw [s]; simp)))
  · intro b hmem
    have hbody := toBody (by rfl) hmem
    rcases pipelineBody_shape config env with s | s | s | s | s | ⟨wav, devices, s⟩ <;>
      rw [s] at hbody
    · simp at hbody
    · simp at hbody
    · simp at hbody
    · simp at hbody
    · simp at hbody
    · simp only [List.mem_cons] at hbody
      rcases hbody with h' | h' | h' | h' | h'
      · cases h'
      · cases h'
      · cases h'
      · cases h'
      · rcases deviceLoop_play_wait_attempt
            ⟨(by intro i' b' hne; cases hne), (by intro i' b' hne; cases hne)⟩ h' with
          ⟨d, hfm, hatt⟩
        have ho := mem_attemptDevice_wavDecode_open hatt
        have hopen := attemptDevice_head_openStream env wav d
        rw [ho] at hopen
        rcases deviceLoop_eq_of_first env config.output_device wav devices d hfm with
          ⟨pre, heq, _⟩
        refine ⟨d.id, mem_pipelineThread_iff.mpr (Or.inr (Or.inl ?_))⟩
        rw [s]
        simp only [List.mem_cons]
        refine Or.inr (Or.inr (Or.inr (Or.inr ?_)))
        rw [heq]
        exact List.mem_append.mpr (Or.inr hopen)
  · intro hmem i ok hcb
    have hbody := toBody (by rfl) hmem
    have hcbody := toBody (by rfl) hcb
    rcases pipelineBody_shape config env with s | s | s | s | s | ⟨wav, devices, s⟩ <;>
      rw [s] at hbody hcbody
    · simp at hbody
    · simp at hbody
    · simp at hbody
    · simp at hbody
    · simp at hbody
    · simp only [List.mem_cons] at hbody hcbody
      rcases hbody with h' | h' | h' | h' | h'
      · cases h'
      · cases h'
      · cases h'
      · cases h'
      rcases hcbody with h'' | h'' | h'' | h'' | h''
      · cases h''
      · cases h''
      · cases h''
      · cases h''
      rcases deviceLoop_play_wait_attempt
          ⟨(by intro i' b' hne; cases hne), (by intro i' b' hne; cases hne)⟩ h' with
        ⟨d, _, hatt⟩
      have hwnone := mem_attemptDevice_wavDecode_false hatt
      rcases deviceLoop_play_wait_attempt
          ⟨(by intro i' b' hne; cases hne), (by intro i' b' hne; cases hne)⟩ h'' with
        ⟨d', _, hatt'⟩
      exact (attemptDevice_wavErr_no_play hwnone d').1 i ok hatt'

/-- C4 (witness for the amended claim): on the failing-WAV environment, the
container decode event implies an earlier successful stream open, concretely
on device 0. -/
theorem C4_stage_order_witness :
    Event.b64Decode true ∈ pipelineThread cfgTest "hi" envWavErr :=
  (C4_stage_order cfgTest "hi" envWavErr).2.1 ⟨true, by decide⟩

/-- C6: a synthesis response mapping that lacks `audioContent` makes the
pipeline stop at the extraction step: the full trace is exactly HTTP post,
JSON parse, failed field extraction, and the completion-signal send — so no
base64 decode and no container decode is ever attempted, and the signal is
still released. -/
theorem C6_missing_audio_content (config : Configuration) (text : String)
    (env : PipelineEnv) (fields : List (String × String))
    (hh : env.http = HttpResult.jsonOk fields)
    (hf : lookupField fields "audioContent" = none) :
    pipelineThread config text env =
        [Event.httpPost text config.gcloud_language config.gcloud_voice,
         Event.jsonParsed true, Event.extractField false, Event.signalSend] ∧
      (∀ b, Event.b64Decode b ∉ pipelineThread config text env) ∧
      (∀ b, Event.wavDecode b ∉ pipelineThread config text env) ∧
      Event.signalSend ∈ pipelineThread config text env := by
  have heq : pipelineThread config text env =
      [Event.httpPost text config.gcloud_language config.gcloud_voice,
       Event.jsonParsed true, Event.extractField false, Event.signalSend] := by
    unfold pipelineThread pipelineBody
    simp [hh, hf]
  refine ⟨heq, ?_, ?_, ?_⟩
  · intro b h
    rw [heq] at h
    simp at h
  · intro b h
    rw [heq] at h
    simp at h
  · rw [heq]
    simp

/-- C6 (witness): the concrete response `{"error": "quota"}` yields exactly
the four-event trace. -/
theorem C6_missing_audio_content_witness :
    pipelineThread cfgTest "hello" envNoAudio =
      [Event.httpPost "hello" "en-US" "en-US-Standard-A",
       Event.jsonParsed true, Event.extractField false, Event.signalSend] :=
  (C6_missing_audio_content cfgTest "hello" envNoAudio [("error", "quota")]
    rfl rfl).1

/-- C3: the completion signal is written exactly once per process run
whenever the trigger decision is reached: over any frame sequence from a
fresh app the signal is sent at most once; if some frame reaches the trigger
decision (box unfocused, grace period elapsed) it is sent exactly once —
whether that frame observed Enter (pipeline launched, which sends on every
success or failure path) or not (abandoned, sent directly) — so the final
wait in `main` receives it rather than blocking, and it never fires twice. -/
theorem C3_signal_exactly_once (config : Configuration) (env : PipelineEnv)
    (frames : List FrameInput) :
    totalSignals env (runFrames (OverlayApp.new config) frames).2 ≤ 1 ∧
      ((∃ f ∈ frames, f.hasFocus = false ∧ f.graceElapsed = true) →
        totalSignals env (runFrames (OverlayApp.new config) frames).2 = 1 ∧
          oneshotRecv
              (totalSignals env (runFrames (OverlayApp.new config) frames).2) =
            RecvResult.received) ∧
      ∀ text, (pipelineThread config text env).count Event.signalSend = 1 := by
  refine ⟨?_, ?_, fun text => pipelineThread_signal_count config text env⟩
  · have h := totalSignals_le env frames (OverlayApp.new config)
    simpa [OverlayApp.new] using h
  · intro hex
    have h1 := totalSignals_eq_one env frames (OverlayApp.new config) rfl hex
    exact ⟨h1, by rw [h1]; rfl⟩

/-- C3 (witness): a single frame that reaches the trigger decision with
Enter pressed yields exactly one signal. -/
theorem C3_signal_exactly_once_witness :
    totalSignals envNoDur
        (runFrames (OverlayApp.new cfgTest) [⟨"hi", false, true, true⟩]).2 = 1 :=
  ((C3_signal_exactly_once cfgTest envNoDur [⟨"hi", false, true, true⟩]).2.1
    ⟨⟨"hi", false, true, true⟩, by decide, rfl, rfl⟩).1

/-- C5 (counterexample): the claim says the close command is issued exactly
once per process run and never a second time on later UI refreshes.  On the
code, a run of two unfocused post-grace refreshes issues it twice: the
second refresh finds the sender already taken but still sends
`ViewportCommand::Close`, because that call sits outside the sender-guarded
branches. -/
theorem C5_counterexample :
    ((runFrames (OverlayApp.new cfgTest)
        [⟨"hi", false, true, false⟩, ⟨"hi", false, true, false⟩]).2.map
          FrameOutput.closeCmd) = [true, true] := by
  rfl

/-- C5 (amended): the close command is issued on exactly the refreshes in
which the input surface lacks focus and the grace period has elapsed — hence
in the same step as the trigger decision, in both the Enter-observed and the
abandoned branch — but also again on every later such refresh, and never on
a focused or in-grace refresh. -/
theorem C5_close_every_unfocused_frame (s : AppState) (inp : FrameInput) :
    (updateFrame s inp).2.closeCmd = (!inp.hasFocus && inp.graceElapsed) := by
  unfold updateFrame
  by_cases h1 : !inp.hasFocus && inp.graceElapsed <;>
    by_cases h2 : inp.enterPressed <;>
    by_cases h3 : s.waiter <;>
    simp [h1, h2, h3]

/-- C7: while the input surface holds focus, or the 500ms grace period has
not elapsed, the refresh evaluates no trigger: even with Enter pressed, no
pipeline is spawned, no signal is sent, no close is requested, the sender is
untouched, and focus is re-requested on the text box. -/
theorem C7_idle_frame (s : AppState) (inp : FrameInput)
    (h : inp.hasFocus = true ∨ inp.graceElapsed = false) :
    (updateFrame s inp).2.spawned = none ∧
      (updateFrame s inp).2.sentNow = false ∧
      (updateFrame s inp).2.closeCmd = false ∧
      (updateFrame s inp).2.focusReq = true ∧
      (updateFrame s inp).1.waiter = s.waiter := by
  rw [updateFrame_idle h]
  exact ⟨rfl, rfl, rfl, rfl, rfl⟩

/-- C7 (witness): Enter pressed on a frame before the grace period has
elapsed launches nothing and requests no close. -/
theorem C7_idle_frame_witness :
    (updateFrame (OverlayApp.new cfgTest) ⟨"x", false, false, true⟩).2.spawned =
        none ∧
      (updateFrame (OverlayApp.new cfgTest) ⟨"x", false, false, true⟩).2.closeCmd =
        false :=
  ⟨(C7_idle_frame (OverlayApp.new cfgTest) ⟨"x", false, false, true⟩ (Or.inr rfl)).1,
   (C7_idle_frame (OverlayApp.new cfgTest) ⟨"x", false, false, true⟩
     (Or.inr rfl)).2.2.1⟩

/-- C10: if the UI loop ends without any refresh reaching the trigger
decision (every frame focused or within the grace period), the oneshot
sender is still held — so it is dropped unsent when the app is torn down —
no signal was ever written, and the final `recv.recv()` in `main` returns a
disconnection error immediately instead of blocking; `main` discards that
result, so process exit is not prevented. -/
theorem C10_dropped_sender (config : Configuration) (env : PipelineEnv)
    (frames : List FrameInput)
    (h : ∀ f ∈ frames, f.hasFocus = true ∨ f.graceElapsed = false) :
    (runFrames (OverlayApp.new config) frames).1.waiter = true ∧
      totalSignals env (runFrames (OverlayApp.new config) frames).2 = 0 ∧
      oneshotRecv
          (totalSignals env (runFrames (OverlayApp.new config) frames).2) =
        RecvResult.disconnected := by
  rcases runFrames_idle env frames (OverlayApp.new config) h with ⟨h1, h2, _⟩
  exact ⟨h1, h2, by rw [h2]; rfl⟩

/-- C10 (witness): a run dismissed after one focused frame leaves the
sender unsent and `recv` disconnected. -/
theorem C10_dropped_sender_witness :
    oneshotRecv (totalSignals envNoDur
        (runFrames (OverlayApp.new cfgTest) [⟨"a", true, true, true⟩]).2) =
      RecvResult.disconnected :=
  (C10_dropped_sender cfgTest envNoDur [⟨"a", true, true, true⟩] (by decide)).2.2

end TTSOverlay
